import Mathlib

/-
Shallow embedding of src/engine/components/network/net.io/IgeNetIoClient.js
(the client-side net.io component of the ige repository).

The component is a JavaScript mixin object with mutable fields.  We model it
as an explicit state record `ClientState`; each method of the source becomes a
Lean function from a state (plus the method arguments) to a `StepResult`,
which carries the updated state, the list of observable effects produced in
order (transport sends, log lines, emitted events, invoked callbacks), and an
optional JavaScript runtime error.  A raised error aborts the rest of the
method body, so every state change and effect after the raise point is absent
from the result, exactly as in the source.

JavaScript values that travel on the wire or live in the request map are
modelled by the inductive `JsValue` (undefined, strings, integer numbers,
arrays, objects).  Function values do not travel on the wire; callbacks and
user handlers are represented by opaque numeric tokens whose invocation is
recorded as an effect.  IEEE-754 floats appear in the source only inside
`newIdHex` (Math.random draws); they are abstracted there by a natural-number
draw passed in as an argument.  Property-key coercion (JS ToString on a value
used as an object key) is modelled by `jsKey`.
-/

/-- JavaScript values as used by this component: `undefined`, strings,
integer numbers (the protocol only uses integer command indices), arrays and
plain objects given as ordered field lists.  Source: wire frames and the
objects built in lines 135-141, 149-153 and 170-174 of IgeNetIoClient.js. -/
inductive JsValue where
  | undef : JsValue
  | str : String → JsValue
  | num : Int → JsValue
  | arr : List JsValue → JsValue
  | obj : List (String × JsValue) → JsValue

/-- JavaScript runtime errors that the component can raise. -/
inductive JsError where
  | referenceError : String → JsError
  | typeError : String → JsError

/-- Log levels of the surrounding framework logger: `this.log(msg)` logs at
the default level, `this.log(msg, 'warning')` and `this.log(msg, 'error')`
at the two explicit levels. -/
inductive LogLevel where
  | info : LogLevel
  | warning : LogLevel
  | error : LogLevel

/-- Association-list lookup with string keys, modelling JS own-property
lookup `o[k]` (JS object keys are unique, and `assocInsert` preserves that). -/
def assocLookup {α : Type} : List (String × α) → String → Option α
  | [], _ => none
  | (k, v) :: rest, key => if k == key then some v else assocLookup rest key

/-- Property write `o[k] = v`: overwrites in place if the key exists,
otherwise appends (JS insertion order of first definition). -/
def assocInsert {α : Type} : List (String × α) → String → α → List (String × α)
  | [], key, v => [(key, v)]
  | (k, w) :: rest, key, v =>
    if k == key then (k, v) :: rest else (k, w) :: assocInsert rest key v

/-- Property delete `delete o[k]`: removes the (unique) entry with that key. -/
def assocErase {α : Type} : List (String × α) → String → List (String × α)
  | [], _ => []
  | (k, w) :: rest, key =>
    if k == key then rest else (k, w) :: assocErase rest key

mutual

/-- JS ToString of a value used as a property key: strings are themselves,
`undefined` prints as "undefined", integer numbers print in decimal, arrays
join their elements with commas (with `undefined` elements printing empty,
as Array.prototype.join does), plain objects print as "[object Object]". -/
def jsKey : JsValue → String
  | JsValue.undef => "undefined"
  | JsValue.str s => s
  | JsValue.num n => toString n
  | JsValue.arr xs => jsKeyElems xs
  | JsValue.obj _ => "[object Object]"

/-- Comma join of array elements for `jsKey`, following
Array.prototype.join: `undefined` elements contribute the empty string. -/
def jsKeyElems : List JsValue → String
  | [] => ""
  | [JsValue.undef] => ""
  | [v] => jsKey v
  | JsValue.undef :: vs => "," ++ jsKeyElems vs
  | v :: vs => jsKey v ++ "," ++ jsKeyElems vs

end

/-- Property read `v[key]` for a string key: defined own properties of plain
objects; everything else (absent keys, primitives, arrays, which have no
string-named own data properties used here) yields `undefined`. -/
def objGet : JsValue → String → JsValue
  | JsValue.obj fs, key => (assocLookup fs key).getD JsValue.undef
  | _, _ => JsValue.undef

/-- Numeric index read `v[i]` as used on decoded frames (`data[0]`,
`data[1]` in lines 234 and 237): array element when present, the "i" own
property of a plain object, `undefined` otherwise. -/
def jsIndex : JsValue → Nat → JsValue
  | JsValue.arr xs, i => xs.getD i JsValue.undef
  | JsValue.obj fs, i => (assocLookup fs (toString i)).getD JsValue.undef
  | _, _ => JsValue.undef

/-- Property read `v[key]` where the receiver may be any value the program
can have assigned, as in lines 98 and 117 after line 46 stored `data.ncmds`
verbatim: property access on `undefined` throws TypeError; on a plain object
it is own-property lookup; on other values (strings, numbers, arrays, which
box or are objects) it yields the absent property, `undefined` — the keys
read here are command names, which do not collide with character indices or
`length` of a string receiver, and those built-ins are not modelled. -/
def jsGetProp : JsValue → String → Except JsError JsValue
  | JsValue.undef, key =>
    Except.error (JsError.typeError
      ("Cannot read properties of undefined, reading " ++ key))
  | JsValue.obj fs, key => Except.ok ((assocLookup fs key).getD JsValue.undef)
  | _, _ => Except.ok JsValue.undef

/-- Test for the JS value `undefined`, used for the strict comparisons
`!== undefined` in lines 98 and 119. -/
def isUndef : JsValue → Bool
  | JsValue.undef => true
  | _ => false

/-- Resolution of a bare identifier against an environment of declared
bindings; an unresolvable identifier raises ReferenceError, per JS GetValue
on an unresolvable reference. -/
def resolveIdent (env : List (String × JsValue)) (x : String) :
    Except JsError JsValue :=
  match assocLookup env x with
  | some v => Except.ok v
  | none => Except.error (JsError.referenceError x)

/-- The bare-identifier bindings visible to the component methods.  The file
declares no variable named `socket` or `commandName` in any enclosing scope
(spec section 9 notes that lines 195 and 212 reference variables that appear
never explicitly declared), so this environment is empty and resolving
either name raises ReferenceError.  The sloppy-mode global writes to `id`
and `req` in lines 204 and 208 create bindings that no other code reads, so
they are not tracked. -/
def fileGlobals : List (String × JsValue) := []

/-- Handler values storable in `_networkCommands`: the two reserved methods
bound in lines 57-58, or an opaque user-supplied function. -/
inductive HandlerV where
  | onRequestH : HandlerV
  | onResponseH : HandlerV
  | user : Nat → HandlerV

/-- An entry of the `_requests` map: the stored non-function fields of the
request object, plus the `callback` property when it is a function value
(line 139; entries stored by the inbound-request path would have none). -/
structure ReqEntry where
  fields : JsValue
  callback : Option Nat

/-- Observable effects of running a method, in program order. -/
inductive Effect where
  | logged : String → LogLevel → Effect
  | sent : JsValue → Effect
  | emitted : JsValue → JsValue → Effect
  | handlerInvoked : Nat → JsValue → Effect
  | callbackInvoked : Nat → JsValue → JsValue → Effect
  | startCbInvoked : Nat → Effect
  | openedConnection : Option String → Effect

/-- The mutable state of the component.  `_initDone`, `_idCounter` and
`_requests` are initialised in lines 6-8 of the source; the three command
tables are fields of the host component object the mixin is merged into.
`_networkCommandsLookup` is held as a raw `JsValue`, because line 46
reassigns it to `data.ncmds` verbatim — which need not be an object — and
lines 98 and 117 then perform property reads on whatever it is.
`startCallback` models `_startCallback` (a function value, as an opaque
token), `url` models `_url`, and `io` records whether `_io` holds a
connected transport (set by `start` when a WebSocket implementation
exists). -/
structure ClientState where
  initDone : Bool
  idCounter : Nat
  requests : List (String × ReqEntry)
  networkCommandsLookup : JsValue
  networkCommandsIndex : List (String × String)
  networkCommands : List (String × HandlerV)
  startCallback : Option Nat
  url : Option String
  io : Bool

/-- Result of running one method body: the state after it, the effects it
produced in order, and the JS error it raised, if any (state changes and
effects that the source would perform after the raise point are absent). -/
structure StepResult where
  state : ClientState
  effects : List Effect
  error : Option JsError

/-- Modelled from the spec: the host component that this mixin is merged
into (IgeNetIoComponent, not under src/) initialises the command tables; per
spec section 3 the CommandTable is built exactly once from the handshake and
the HandlerTable is populated by registration calls, so both start empty.
`_initDone = false`, `_idCounter = 0` and `_requests` empty come directly
from lines 6-8 of the source. -/
def initialState : ClientState where
  initDone := false
  idCounter := 0
  requests := []
  networkCommandsLookup := JsValue.obj []
  networkCommandsIndex := []
  networkCommands := []
  startCallback := none
  url := none
  io := false

/-- The read `this._networkCommandsLookup[name]` of lines 98 and 117: a
property read on whatever value the lookup table currently holds — absent
keys of an object table read as `undefined`, while a table that is itself
`undefined` (after line 46 stored an absent ncmds) makes the read throw
TypeError. -/
def commandLookup (st : ClientState) (name : String) :
    Except JsError JsValue :=
  jsGetProp st.networkCommandsLookup name

/-- Lines 95-108, `define(commandName, callback)`: with both arguments
defined, reads the lookup table entry (line 98; this read throws TypeError
when the table is the value `undefined`), binds the handler when the entry
is defined and logs an error otherwise; with either argument undefined, logs
an error. -/
def define (st : ClientState) (commandName : Option String)
    (callback : Option HandlerV) : StepResult :=
  match commandName, callback with
  | some c, some cb =>
    match commandLookup st c with
    | Except.error e => { state := st, effects := [], error := some e }
    | Except.ok v =>
      if isUndef v then
        { state := st
          effects := [Effect.logged ("Cannot define network command \"" ++ c ++
            "\" because it does not exist on the server. Please edit your server code and define the network command there before trying to define it on the client!")
            LogLevel.error]
          error := none }
      else
        { state := { st with networkCommands := assocInsert st.networkCommands c cb }
          effects := []
          error := none }
  | _, _ =>
    { state := st
      effects := [Effect.logged "Cannot define network command either the commandName or callback parameters were undefined!" LogLevel.error]
      error := none }

/-- Lines 116-124, `send(commandName, data)`: reads the lookup table entry
(line 117; this read throws TypeError when the table is the value
`undefined`); if the index is defined, hands the two-element frame
`[commandIndex, data]` to the transport (`this._io.send`), otherwise logs an
error and sends nothing.  `this._io` is only ever set when a WebSocket
implementation existed at `start`; calling through it while unset would be a
TypeError. -/
def send (st : ClientState) (commandName : String) (data : JsValue) :
    StepResult :=
  match commandLookup st commandName with
  | Except.error e => { state := st, effects := [], error := some e }
  | Except.ok commandIndex =>
    if isUndef commandIndex then
      { state := st
        effects := [Effect.logged ("Cannot send network packet with command \"" ++
          commandName ++ "\" because the command has not been defined!")
          LogLevel.error]
        error := none }
    else
      if st.io then
        { state := st
          effects := [Effect.sent (JsValue.arr [commandIndex, data])]
          error := none }
      else
        { state := st
          effects := []
          error := some (JsError.typeError "this._io is undefined") }

/-- Lines 186-189, `newIdHex()`: increments `_idCounter`, then returns the
hex rendering of the new counter value plus the random part.  The four
`Math.random() * 10^17` draws are IEEE-754 floats; they are abstracted as a
single natural-number draw `rnd` supplied by the caller, and the hex
rendering is that of a natural number.  Returns the id string and the new
counter. -/
def newIdHex (idCounter rnd : Nat) : String × Nat :=
  let c := idCounter + 1
  (String.mk (Nat.toDigits 16 (c + rnd)), c)

/-- Lines 133-155, `request(commandName, data, callback)`: builds the
request object with a fresh id and the current time, stores it in
`_requests` keyed by the id, then sends the envelope over the reserved
"_igeRequest" command via `send` (which logs and transmits nothing when that
command is not in the lookup table; the stored entry remains either way). -/
def request (st : ClientState) (commandName : String) (data : JsValue)
    (callback : Nat) (now : Int) (rnd : Nat) : StepResult :=
  let idc := newIdHex st.idCounter rnd
  let reqId := idc.1
  let entry : ReqEntry :=
    { fields := JsValue.obj [("id", JsValue.str reqId),
        ("cmd", JsValue.str commandName), ("data", data),
        ("timestamp", JsValue.num now)]
      callback := some callback }
  let st1 : ClientState :=
    { st with idCounter := idc.2, requests := assocInsert st.requests reqId entry }
  let r := send st1 "_igeRequest"
    (JsValue.obj [("id", JsValue.str reqId),
      ("cmd", JsValue.str commandName), ("data", data)])
  { state := r.state, effects := r.effects, error := r.error }

/-- Lines 162-180, `response(requestId, data)`: looks the request up in
`_requests`; if found, sends the envelope
`with id := requestId, cmd := req.commandName, data := data` over the
reserved "_igeResponse" command and then deletes the entry.  The stored
request objects carry their command name under the field `cmd`, so the read
of the `commandName` property yields `undefined`.  If the id is unknown the
call does nothing. -/
def response (st : ClientState) (requestId : String) (data : JsValue) :
    StepResult :=
  match assocLookup st.requests requestId with
  | some req =>
    let r := send st "_igeResponse"
      (JsValue.obj [("id", JsValue.str requestId),
        ("cmd", objGet req.fields "commandName"), ("data", data)])
    match r.error with
    | some e => { state := r.state, effects := r.effects, error := some e }
    | none =>
      { state := { r.state with requests := assocErase r.state.requests requestId }
        effects := r.effects
        error := none }
  | none => { state := st, effects := [], error := none }

/-- Lines 191-199, `_onRequest(data)`.  The only invocation site is line
237, `this._networkCommands[commandName](data[1])`, whose callee is a member
expression of the handler table, so inside the handler `this` is the
`_networkCommands` table, not the component.  The first statement, line 195
`with data.socket := socket`, evaluates its right-hand side — the bare
identifier `socket`, which is unresolvable — before the member write, so the
method raises ReferenceError here, before the store of line 196 and the emit
of line 198.  The continuation is unreachable; were the identifier
resolvable, line 196 would write through `this._requests`, which on the
handler table is `undefined` (TypeError), and even with a handler bound
under the literal name "_requests" — a function, which takes the write
silently — line 198 would call `this.emit`, absent from the handler table
(TypeError).  Either way nothing is ever stored or emitted. -/
def _onRequest (st : ClientState) (_data : JsValue) : StepResult :=
  match resolveIdent fileGlobals "socket" with
  | Except.error e => { state := st, effects := [], error := some e }
  | Except.ok _ =>
    match assocLookup st.networkCommands "_requests" with
    | none =>
      { state := st, effects := []
        error := some (JsError.typeError "this._requests is undefined") }
    | some _ =>
      { state := st, effects := []
        error := some (JsError.typeError "this.emit is not a function") }

/-- Lines 201-217, `_onResponse(data)`.  The only invocation site is line
237, `this._networkCommands[commandName](data[1])`, whose callee is a member
expression of the handler table, so inside the handler `this` is the
`_networkCommands` table, not the component.  Line 208 therefore reads the
`_requests` property of the handler table: no command of that name is bound
in normal operation, the read yields `undefined`, and indexing it with the
id throws TypeError before any request lookup.  In the pathological case
where a command literally named "_requests" has been bound, the property is
that handler function, whose indexed property is `undefined` (handler
functions carry no data properties here), so `req` is falsy, the line-210
guard fails and the method does nothing.  The invoke-and-delete continuation
of lines 210-216 is unreachable either way — and had a request object been
obtained, line 212 would still throw ReferenceError on the unresolvable
identifier `commandName` before invoking the callback.  The sloppy-mode
global writes to `id` and `req` in lines 204 and 208 are not otherwise
read.  Line 204 runs first and reads `data.id`, which itself throws
TypeError when the frame carried no payload (`data` is then `undefined`). -/
def _onResponse (st : ClientState) (data : JsValue) : StepResult :=
  match jsGetProp data "id" with
  | Except.error e => { state := st, effects := [], error := some e }
  | Except.ok _ =>
    match assocLookup st.networkCommands "_requests" with
    | none =>
      { state := st, effects := []
        error := some (JsError.typeError "this._requests is undefined") }
    | some _ => { state := st, effects := [], error := none }

/-- Runs a handler value from `_networkCommands` on a payload, as invoked by
line 237: the reserved methods run with the line-237 receiver (the handler
table) over the component state; a user function is an opaque invocation
recorded as an effect. -/
def runHandler : HandlerV → ClientState → JsValue → StepResult
  | HandlerV.onRequestH, st, d => _onRequest st d
  | HandlerV.onResponseH, st, d => _onResponse st d
  | HandlerV.user k, st, d =>
    { state := st, effects := [Effect.handlerInvoked k d], error := none }

/-- Line 234, `var commandName = this._networkCommandsIndex[data[0]]`: the
command name resolved from the frame index through the reverse table, or the
JS value `undefined` when the index is not in the table. -/
def resolveCommandName (st : ClientState) (data : JsValue) : JsValue :=
  match assocLookup st.networkCommandsIndex (jsKey (jsIndex data 0)) with
  | some n => JsValue.str n
  | none => JsValue.undef

/-- Lines 233-241, `_onMessageFromServer(data)`: resolves `data[0]` through
the reverse index to a command name (`undefined` when absent), invokes the
bound handler on `data[1]` when one exists under that name, and then emits
the generic event named by the command name with `data[1]` — also when the
name is `undefined`.  A handler that raises propagates before the emit. -/
def _onMessageFromServer (st : ClientState) (data : JsValue) : StepResult :=
  match assocLookup st.networkCommands (jsKey (resolveCommandName st data)) with
  | some h =>
    match (runHandler h st (jsIndex data 1)).error with
    | some e =>
      { state := (runHandler h st (jsIndex data 1)).state
        effects := (runHandler h st (jsIndex data 1)).effects
        error := some e }
    | none =>
      { state := (runHandler h st (jsIndex data 1)).state
        effects := (runHandler h st (jsIndex data 1)).effects ++
          [Effect.emitted (resolveCommandName st data) (jsIndex data 1)]
        error := none }
  | none =>
    { state := st
      effects := [Effect.emitted (resolveCommandName st data) (jsIndex data 1)]
      error := none }

/-- The strict-equality test `data.cmd === 'init'` of line 41, on a whole
frame. -/
def isInitFrame (data : JsValue) : Bool :=
  match objGet data "cmd" with
  | JsValue.str s => s == "init"
  | _ => false

/-- The key-value pairs visited by the for-in loop of lines 49-54: the own
enumerable properties of an object, in insertion order; for-in over
`undefined`, a number or a boolean visits nothing.  (For-in over a string
visits its character indices; a string-valued ncmds is not exercised by any
claim and its character properties are not modelled.) -/
def forInProps : JsValue → List (String × JsValue)
  | JsValue.obj fs => fs
  | _ => []

/-- Lines 43-54: marks init done, assigns `data.ncmds` verbatim as the new
lookup table (line 46 — the value need not be an object, and when ncmds is
absent the table becomes the value `undefined`), and extends the reverse
index with one entry per own property visited by the for-in loop (key: the
index value coerced to a property key; value: the name; later entries
overwrite earlier ones with the same coerced key). -/
def initTables (st : ClientState) (data : JsValue) : ClientState :=
  { st with initDone := true,
            networkCommandsLookup := objGet data "ncmds",
            networkCommandsIndex :=
              (forInProps (objGet data "ncmds")).foldl
                (fun acc p => assocInsert acc (jsKey p.2) p.1)
                st.networkCommandsIndex }

/-- The log line of line 60, counting the for-in iterations over ncmds. -/
def countLogEffect (data : JsValue) : Effect :=
  Effect.logged ("Received network command list with count: " ++
    toString (forInProps (objGet data "ncmds")).length) LogLevel.info

/-- Line 57: the reserved-request registration performed during the
handshake, on the freshly initialised tables.  When ncmds was absent, the
lookup table is `undefined` and this `define` throws TypeError at line 98. -/
def defineRequestStep (st : ClientState) (data : JsValue) : StepResult :=
  define (initTables st data) (some "_igeRequest") (some HandlerV.onRequestH)

/-- Line 58: the reserved-response registration, on the state after line
57. -/
def defineResponseStep (st : ClientState) (data : JsValue) : StepResult :=
  define (defineRequestStep st data).state (some "_igeResponse")
    (some HandlerV.onResponseH)

/-- Lines 37-68, the pre-dispatch half of the message listener: when
`_initDone` is still false and the frame is init-shaped, applies
`initTables`, registers the two reserved commands through `define` (lines
57-58; these log an error when the server did not declare them in ncmds, and
throw TypeError when ncmds was absent, aborting the block after `_initDone`
is already set), logs the command count, and, when `_startCallback` holds a
function, invokes it and deletes it.  Otherwise the state is unchanged. -/
def handshake (st : ClientState) (data : JsValue) : StepResult :=
  if st.initDone then { state := st, effects := [], error := none }
  else
    if isInitFrame data then
      match (defineRequestStep st data).error with
      | some e =>
        { state := (defineRequestStep st data).state
          effects := (defineRequestStep st data).effects
          error := some e }
      | none =>
        match (defineResponseStep st data).error with
        | some e =>
          { state := (defineResponseStep st data).state
            effects := (defineRequestStep st data).effects ++
              (defineResponseStep st data).effects
            error := some e }
        | none =>
          match (defineResponseStep st data).state.startCallback with
          | some k =>
            { state := { (defineResponseStep st data).state with
                startCallback := none }
              effects := (defineRequestStep st data).effects ++
                (defineResponseStep st data).effects ++
                [countLogEffect data, Effect.startCbInvoked k]
              error := none }
          | none =>
            { state := (defineResponseStep st data).state
              effects := (defineRequestStep st data).effects ++
                (defineResponseStep st data).effects ++ [countLogEffect data]
              error := none }
    else { state := st, effects := [], error := none }

/-- Lines 36-71, the full message listener registered by `start`: the
handshake special case, then `_onMessageFromServer` on the updated state.
An error thrown inside the handshake block propagates out of the listener
and skips the dispatch of line 70; otherwise the frame is dispatched
regardless of handshake state.  Frames are decoded JSON values and are
therefore never the value `undefined` themselves, so the frame reads of
lines 41 and 234 cannot throw and are modelled total. -/
def onMessage (st : ClientState) (data : JsValue) : StepResult :=
  match (handshake st data).error with
  | some e =>
    { state := (handshake st data).state
      effects := (handshake st data).effects
      error := some e }
  | none =>
    { state := (_onMessageFromServer (handshake st data).state data).state
      effects := (handshake st data).effects ++
        (_onMessageFromServer (handshake st data).state data).effects
      error := (_onMessageFromServer (handshake st data).state data).error }

/-- Delivery of a sequence of inbound message frames, one listener call per
frame.  An error thrown out of one listener call propagates to the
transport; the next message event still fires (each delivery is its own
event-loop task), so the fold continues with the state reached at the raise
point. -/
def runMessages (st : ClientState) : List JsValue → ClientState × List Effect
  | [] => (st, [])
  | d :: ds =>
    let r := onMessage st d
    let rest := runMessages r.state ds
    (rest.1, r.effects ++ rest.2)

/-- Lines 16-83, `start(url, callback)`: stores the callback in
`_startCallback`, stores the url in `_url` when one was passed, logs the
connecting message, and then — only when a WebSocket implementation exists —
creates the transport client (passing the url parameter) and registers the
connect/message/disconnect/error listeners.  `hasWebSocket` models the
`typeof WebSocket` environment test of line 27. -/
def start (st : ClientState) (url : Option String) (callback : Option Nat)
    (hasWebSocket : Bool) : StepResult :=
  let st1 : ClientState := { st with startCallback := callback }
  let st2 : ClientState :=
    if url.isSome then { st1 with url := url } else st1
  let connectLog := Effect.logged
    ("Connecting to net.io server at \"" ++
      (match st2.url with | some u => u | none => "undefined") ++ "\"...")
    LogLevel.info
  if hasWebSocket then
    { state := { st2 with io := true }
      effects := [connectLog, Effect.openedConnection url]
      error := none }
  else
    { state := st2, effects := [connectLog], error := none }

/-- Lines 223-226, `_onConnectToServer`: logs and emits `connected`. -/
def _onConnectToServer (st : ClientState) : StepResult :=
  { state := st
    effects := [Effect.logged "Connected to server!" LogLevel.info,
      Effect.emitted (JsValue.str "connected") JsValue.undef]
    error := none }

/-- Lines 248-255, `_onDisconnectFromServer(data)`: the reason value
"booted" is surfaced as a distinct warning, any other disconnect as the
generic notice; either way emits `disconnected`. -/
def _onDisconnectFromServer (st : ClientState) (data : JsValue) : StepResult :=
  let msg :=
    match data with
    | JsValue.str s =>
      if s == "booted" then
        Effect.logged "Server rejected our connection because it is not accepting connections at this time!" LogLevel.warning
      else Effect.logged "Disconnected from server!" LogLevel.info
    | _ => Effect.logged "Disconnected from server!" LogLevel.info
  { state := st
    effects := [msg, Effect.emitted (JsValue.str "disconnected") JsValue.undef]
    error := none }

/-- Lines 262-264, `_onError(data)`: logs the reason at error level. -/
def _onError (st : ClientState) (data : JsValue) : StepResult :=
  { state := st
    effects := [Effect.logged ("Error with connection: " ++
      jsKey (objGet data "reason")) LogLevel.error]
    error := none }

/-- State after a successful `start` on a fresh component: the ready
callback (token 0) is stored and the transport is connected. -/
def stAfterStart : ClientState :=
  (start initialState (some "ws://server") (some 0) true).state

/-- A handshake frame declaring one game command and the two reserved RPC
commands, as in the spec section 8 scenarios. -/
def initFrameC : JsValue :=
  JsValue.obj [("cmd", JsValue.str "init"),
    ("ncmds", JsValue.obj [("chat", JsValue.num 1),
      ("_igeRequest", JsValue.num 2), ("_igeResponse", JsValue.num 3)])]

/-- State after the handshake frame has been processed. -/
def stReady : ClientState := (onMessage stAfterStart initFrameC).state

/-- State after `request("chat", "hi", cb)` (callback token 7), issued on the
ready state with zero randomness draw: the pending entry is stored under the
generated id "1". -/
def stPending : ClientState :=
  (request stReady "chat" (JsValue.str "hi") 7 0 0).state

/-- An inbound reserved-response frame answering the pending request id "1". -/
def respFrameP : JsValue :=
  JsValue.arr [JsValue.num 3,
    JsValue.obj [("id", JsValue.str "1"), ("data", JsValue.str "ok")]]

/-- An inbound reserved-response frame whose id matches no pending entry. -/
def respFrameNoMatch : JsValue :=
  JsValue.arr [JsValue.num 3,
    JsValue.obj [("id", JsValue.str "zz"), ("data", JsValue.str "ok")]]

/-- An init-shaped frame (it passes the line-41 test) that carries no ncmds
value at all. -/
def initFrameNoNcmds : JsValue := JsValue.obj [("cmd", JsValue.str "init")]

/-- A state whose `_requests` map holds the entry that the inbound-request
handler of lines 191-199 is written to store for the envelope
`with id := "r1", cmd := "chat", data := "hi"` (the write of the `socket`
property in line 195 is omitted, since its right-hand side cannot evaluate;
no property of that name influences `response`).  Used to examine `response`
against an entry of the inbound kind. -/
def stWithInbound : ClientState :=
  { stReady with requests := [("r1",
      { fields := JsValue.obj [("id", JsValue.str "r1"),
          ("cmd", JsValue.str "chat"), ("data", JsValue.str "hi")]
        callback := none })] }

/-- An inbound reserved-request frame carrying a fresh id. -/
def reqFrameR : JsValue :=
  JsValue.arr [JsValue.num 2,
    JsValue.obj [("id", JsValue.str "r9"), ("cmd", JsValue.str "chat"),
      ("data", JsValue.str "hi")]]

/-- An inbound reserved-request frame whose id collides with the pending
locally originated request of `stPending`. -/
def reqFrameSameId : JsValue :=
  JsValue.arr [JsValue.num 2,
    JsValue.obj [("id", JsValue.str "1"), ("cmd", JsValue.str "move"),
      ("data", JsValue.str "z")]]

/-- A decoded frame whose index (9) is not in the reverse command table of
`stReady`. -/
def unknownFrame : JsValue := JsValue.arr [JsValue.num 9, JsValue.str "p"]

/-- Number of ready-callback invocations in an effect list. -/
def countStartCb : List Effect → Nat
  | [] => 0
  | Effect.startCbInvoked _ :: rest => countStartCb rest + 1
  | _ :: rest => countStartCb rest

/-- Tests whether an effect is an emitted event. -/
def isEmittedEff : Effect → Bool
  | Effect.emitted _ _ => true
  | _ => false

/-- Tests whether an effect is a log line. -/
def isLoggedEff : Effect → Bool
  | Effect.logged _ _ => true
  | _ => false

/-- Tests whether an effect is a transport send. -/
def isSentEff : Effect → Bool
  | Effect.sent _ => true
  | _ => false

theorem assocLookup_insert {α : Type} (m : List (String × α)) (key : String)
    (v : α) : assocLookup (assocInsert m key v) key = some v := by
  induction m with
  | nil => simp [assocInsert, assocLookup]
  | cons p rest ih =>
    by_cases h : (p.1 == key) = true
    · simp [assocInsert, assocLookup, h]
    · simp [assocInsert, assocLookup, h, ih]

theorem countStartCb_append (a b : List Effect) :
    countStartCb (a ++ b) = countStartCb a + countStartCb b := by
  induction a with
  | nil => simp [countStartCb]
  | cons e rest ih =>
    cases e
    all_goals simp [countStartCb, ih]
    all_goals omega

theorem eq_undef_of_isUndef (v : JsValue) (h : isUndef v = true) :
    v = JsValue.undef := by
  cases v with
  | undef => rfl
  | str s => simp [isUndef] at h
  | num n => simp [isUndef] at h
  | arr xs => simp [isUndef] at h
  | obj fs => simp [isUndef] at h

theorem jsGetProp_ok (v : JsValue) (key : String) (h : isUndef v = false) :
    ∃ w, jsGetProp v key = Except.ok w := by
  cases v with
  | undef => simp [isUndef] at h
  | str s => exact ⟨JsValue.undef, rfl⟩
  | num n => exact ⟨JsValue.undef, rfl⟩
  | arr xs => exact ⟨JsValue.undef, rfl⟩
  | obj fs => exact ⟨(assocLookup fs key).getD JsValue.undef, rfl⟩

theorem define_startCallback (st : ClientState) (c : Option String)
    (cb : Option HandlerV) :
    (define st c cb).state.startCallback = st.startCallback := by
  cases c with
  | none => cases cb <;> rfl
  | some cn =>
    cases cb with
    | none => rfl
    | some h =>
      simp only [define]
      split
      · rfl
      · split <;> rfl

theorem define_initDone (st : ClientState) (c : Option String)
    (cb : Option HandlerV) : (define st c cb).state.initDone = st.initDone := by
  cases c with
  | none => cases cb <;> rfl
  | some cn =>
    cases cb with
    | none => rfl
    | some h =>
      simp only [define]
      split
      · rfl
      · split <;> rfl

theorem define_networkCommandsLookup (st : ClientState) (c : Option String)
    (cb : Option HandlerV) :
    (define st c cb).state.networkCommandsLookup = st.networkCommandsLookup := by
  cases c with
  | none => cases cb <;> rfl
  | some cn =>
    cases cb with
    | none => rfl
    | some h =>
      simp only [define]
      split
      · rfl
      · split <;> rfl

theorem countStartCb_define (st : ClientState) (c : Option String)
    (cb : Option HandlerV) : countStartCb (define st c cb).effects = 0 := by
  cases c with
  | none => cases cb <;> rfl
  | some cn =>
    cases cb with
    | none => rfl
    | some h =>
      simp only [define]
      split
      · rfl
      · split <;> rfl

theorem runHandler_state (h : HandlerV) (st : ClientState) (d : JsValue) :
    (runHandler h st d).state = st := by
  cases h with
  | onRequestH => rfl
  | onResponseH =>
    show (_onResponse st d).state = st
    unfold _onResponse
    cases jsGetProp d "id" with
    | error e => rfl
    | ok w => cases assocLookup st.networkCommands "_requests" <;> rfl
  | user k => rfl

theorem countStartCb_runHandler (h : HandlerV) (st : ClientState)
    (d : JsValue) : countStartCb (runHandler h st d).effects = 0 := by
  cases h with
  | onRequestH => rfl
  | onResponseH =>
    show countStartCb (_onResponse st d).effects = 0
    unfold _onResponse
    cases jsGetProp d "id" with
    | error e => rfl
    | ok w => cases assocLookup st.networkCommands "_requests" <;> rfl
  | user k => rfl

theorem _onMessageFromServer_state (st : ClientState) (d : JsValue) :
    (_onMessageFromServer st d).state = st := by
  unfold _onMessageFromServer
  cases assocLookup st.networkCommands (jsKey (resolveCommandName st d)) with
  | none => rfl
  | some h =>
    cases he : (runHandler h st (jsIndex d 1)).error with
    | none => simp [he, runHandler_state]
    | some e => simp [he, runHandler_state]

theorem countStartCb_onMessageFromServer (st : ClientState) (d : JsValue) :
    countStartCb (_onMessageFromServer st d).effects = 0 := by
  unfold _onMessageFromServer
  cases assocLookup st.networkCommands (jsKey (resolveCommandName st d)) with
  | none => rfl
  | some h =>
    cases he : (runHandler h st (jsIndex d 1)).error with
    | none => simp [he, countStartCb_append, countStartCb_runHandler, countStartCb]
    | some e => simp [he, countStartCb_runHandler]

theorem runMessages_cons (st : ClientState) (d : JsValue) (ds : List JsValue) :
    runMessages st (d :: ds) =
      ((runMessages (onMessage st d).state ds).1,
        (onMessage st d).effects ++ (runMessages (onMessage st d).state ds).2) := rfl

theorem handshake_skip_done (st : ClientState) (d : JsValue)
    (h : st.initDone = true) :
    handshake st d = { state := st, effects := [], error := none } := by
  unfold handshake
  rw [h]
  simp

theorem handshake_skip_notinit (st : ClientState) (d : JsValue)
    (h1 : st.initDone = false) (h2 : isInitFrame d = false) :
    handshake st d = { state := st, effects := [], error := none } := by
  unfold handshake
  rw [h1, h2]
  simp

theorem initTables_startCallback (st : ClientState) (d : JsValue) :
    (initTables st d).startCallback = st.startCallback := rfl

theorem initTables_initDone (st : ClientState) (d : JsValue) :
    (initTables st d).initDone = true := rfl

theorem initTables_lookup (st : ClientState) (d : JsValue) :
    (initTables st d).networkCommandsLookup = objGet d "ncmds" := rfl

theorem define_of_lookup_err (st : ClientState) (cn : String) (cb : HandlerV)
    (e : JsError) (h : commandLookup st cn = Except.error e) :
    define st (some cn) (some cb) =
      { state := st, effects := [], error := some e } := by
  simp only [define, h]

theorem define_error_of_lookup_ok (st : ClientState) (cn : String)
    (cb : HandlerV) (w : JsValue) (h : commandLookup st cn = Except.ok w) :
    (define st (some cn) (some cb)).error = none := by
  simp only [define, h]
  split <;> rfl

theorem defineRequestStep_lookup (st : ClientState) (d : JsValue) :
    (defineRequestStep st d).state.networkCommandsLookup = objGet d "ncmds" := by
  unfold defineRequestStep
  rw [define_networkCommandsLookup]
  exact initTables_lookup st d

theorem defineRequestStep_startCallback (st : ClientState) (d : JsValue) :
    (defineRequestStep st d).state.startCallback = st.startCallback := by
  unfold defineRequestStep
  rw [define_startCallback, initTables_startCallback]

theorem defineResponseStep_startCallback (st : ClientState) (d : JsValue) :
    (defineResponseStep st d).state.startCallback = st.startCallback := by
  unfold defineResponseStep
  rw [define_startCallback, defineRequestStep_startCallback]

theorem defineResponseStep_initDone (st : ClientState) (d : JsValue) :
    (defineResponseStep st d).state.initDone = true := by
  unfold defineResponseStep defineRequestStep
  rw [define_initDone, define_initDone, initTables_initDone]

theorem countStartCb_defineRequestStep (st : ClientState) (d : JsValue) :
    countStartCb (defineRequestStep st d).effects = 0 := by
  unfold defineRequestStep
  exact countStartCb_define _ _ _

theorem countStartCb_defineResponseStep (st : ClientState) (d : JsValue) :
    countStartCb (defineResponseStep st d).effects = 0 := by
  unfold defineResponseStep
  exact countStartCb_define _ _ _

theorem defineRequestStep_err (st : ClientState) (d : JsValue)
    (h : isUndef (objGet d "ncmds") = true) :
    defineRequestStep st d =
      { state := initTables st d
        effects := []
        error := some (JsError.typeError
          ("Cannot read properties of undefined, reading " ++ "_igeRequest")) } := by
  have hc : commandLookup (initTables st d) "_igeRequest" =
      Except.error (JsError.typeError
        ("Cannot read properties of undefined, reading " ++ "_igeRequest")) := by
    unfold commandLookup
    rw [initTables_lookup, eq_undef_of_isUndef _ h]
    rfl
  unfold defineRequestStep
  exact define_of_lookup_err _ _ _ _ hc

theorem handshake_init_err (st : ClientState) (d : JsValue)
    (h1 : st.initDone = false) (h2 : isInitFrame d = true)
    (h3 : isUndef (objGet d "ncmds") = true) :
    handshake st d =
      { state := initTables st d
        effects := []
        error := some (JsError.typeError
          ("Cannot read properties of undefined, reading " ++ "_igeRequest")) } := by
  unfold handshake
  rw [h1, h2, defineRequestStep_err st d h3]
  simp

theorem handshake_init_ok (st : ClientState) (d : JsValue) (k : Nat)
    (h1 : st.initDone = false) (h2 : isInitFrame d = true)
    (h3 : isUndef (objGet d "ncmds") = false)
    (hsc : st.startCallback = some k) :
    (handshake st d).error = none ∧ (handshake st d).state.initDone = true ∧
    countStartCb (handshake st d).effects = 1 := by
  obtain ⟨w1, hw1⟩ := jsGetProp_ok (objGet d "ncmds") "_igeRequest" h3
  have hc1 : commandLookup (initTables st d) "_igeRequest" = Except.ok w1 := by
    unfold commandLookup
    rw [initTables_lookup]
    exact hw1
  have hr1 : (defineRequestStep st d).error = none := by
    unfold defineRequestStep
    exact define_error_of_lookup_ok _ _ _ _ hc1
  obtain ⟨w2, hw2⟩ := jsGetProp_ok (objGet d "ncmds") "_igeResponse" h3
  have hc2 : commandLookup (defineRequestStep st d).state "_igeResponse" =
      Except.ok w2 := by
    unfold commandLookup
    rw [defineRequestStep_lookup]
    exact hw2
  have hr2 : (defineResponseStep st d).error = none := by
    unfold defineResponseStep
    exact define_error_of_lookup_ok _ _ _ _ hc2
  have hsc2 : (defineResponseStep st d).state.startCallback = some k := by
    rw [defineResponseStep_startCallback, hsc]
  unfold handshake
  rw [h1, h2]
  simp only [Bool.false_eq_true, if_false, if_true]
  rw [hr1, hr2, hsc2]
  refine ⟨rfl, ?_, ?_⟩
  · exact defineResponseStep_initDone st d
  · simp [countStartCb_append, countStartCb_defineRequestStep,
      countStartCb_defineResponseStep, countStartCb, countLogEffect]

theorem onMessage_state_skip (st : ClientState) (d : JsValue)
    (h : handshake st d = { state := st, effects := [], error := none }) :
    (onMessage st d).state = st := by
  unfold onMessage
  rw [h]
  simp [_onMessageFromServer_state]

theorem countStartCb_onMessage_skip (st : ClientState) (d : JsValue)
    (h : handshake st d = { state := st, effects := [], error := none }) :
    countStartCb (onMessage st d).effects = 0 := by
  unfold onMessage
  rw [h]
  simp [countStartCb_append, countStartCb_onMessageFromServer, countStartCb]

theorem onMessage_err_eq (st : ClientState) (d : JsValue) (e : JsError)
    (h : (handshake st d).error = some e) :
    onMessage st d =
      { state := (handshake st d).state
        effects := (handshake st d).effects
        error := some e } := by
  unfold onMessage
  rw [h]

theorem onMessage_state_hok (st : ClientState) (d : JsValue)
    (h : (handshake st d).error = none) :
    (onMessage st d).state = (handshake st d).state := by
  unfold onMessage
  rw [h]
  simp [_onMessageFromServer_state]

theorem countStartCb_onMessage_hok (st : ClientState) (d : JsValue)
    (h : (handshake st d).error = none) :
    countStartCb (onMessage st d).effects =
      countStartCb (handshake st d).effects := by
  unfold onMessage
  rw [h]
  simp [countStartCb_append, countStartCb_onMessageFromServer]

theorem countStartCb_run_done (frames : List JsValue) (st : ClientState)
    (h : st.initDone = true) : countStartCb (runMessages st frames).2 = 0 := by
  induction frames generalizing st with
  | nil => rfl
  | cons d ds ih =>
    have hs : handshake st d = { state := st, effects := [], error := none } :=
      handshake_skip_done st d h
    rw [runMessages_cons]
    simp only [countStartCb_append]
    rw [countStartCb_onMessage_skip st d hs, onMessage_state_skip st d hs, ih st h]

/-- Counterexample for C3: an init-shaped frame carrying no ncmds is the
first init-shaped frame of the session, yet the ready callback fires zero
times — line 43 sets `_initDone` and then the reserved-command registration
of line 57 throws TypeError (the lookup table is the value `undefined`)
before the callback invocation of line 64 — and it still fires zero times
when a later well-formed init frame arrives, because the guard of line 37 is
already closed. -/
theorem c3_ready_callback_counterexample :
    [initFrameNoNcmds, initFrameC].any isInitFrame = true ∧
    countStartCb (runMessages stAfterStart [initFrameNoNcmds, initFrameC]).2 = 0 ∧
    (runMessages stAfterStart [initFrameNoNcmds, initFrameC]).1.initDone = true :=
  ⟨rfl, rfl, rfl⟩

/-- C3 as amended: over any inbound frame sequence from a state with the
handshake not yet done and a ready callback stored, the callback fires at
most once — exactly once when the first init-shaped frame carries a defined
ncmds value, and never otherwise: an init-shaped frame whose ncmds is
undefined marks the handshake done but throws TypeError while registering
the reserved commands, before the callback, which therefore never fires in
the session. -/
theorem c3_ready_callback_at_most_once (st : ClientState) (k : Nat)
    (frames : List JsValue) (h1 : st.initDone = false)
    (h2 : st.startCallback = some k) :
    countStartCb (runMessages st frames).2 =
      (match frames.find? isInitFrame with
       | some f => if isUndef (objGet f "ncmds") then 0 else 1
       | none => 0) := by
  induction frames generalizing st with
  | nil => simp [runMessages, countStartCb, List.find?]
  | cons d ds ih =>
    rw [runMessages_cons]
    simp only [countStartCb_append]
    cases hd : isInitFrame d with
    | true =>
      rw [List.find?_cons_of_pos _ hd]
      cases hn : isUndef (objGet d "ncmds") with
      | true =>
        have hh := handshake_init_err st d h1 hd hn
        have herr : (handshake st d).error = some (JsError.typeError
            ("Cannot read properties of undefined, reading " ++ "_igeRequest")) := by
          rw [hh]
        have hstate : (onMessage st d).state = initTables st d := by
          rw [onMessage_err_eq st d _ herr, hh]
        have heff : countStartCb (onMessage st d).effects = 0 := by
          rw [onMessage_err_eq st d _ herr, hh]
          rfl
        rw [heff, hstate,
          countStartCb_run_done ds (initTables st d) (initTables_initDone st d)]
        simp [hn]
      | false =>
        have hok := handshake_init_ok st d k h1 hd hn h2
        rw [countStartCb_onMessage_hok st d hok.1, hok.2.2,
          onMessage_state_hok st d hok.1,
          countStartCb_run_done ds (handshake st d).state hok.2.1]
        simp [hn]
    | false =>
      have hneg : ¬ (isInitFrame d = true) := by simp [hd]
      have hs := handshake_skip_notinit st d h1 hd
      rw [countStartCb_onMessage_skip st d hs, onMessage_state_skip st d hs,
        ih st h1 h2, List.find?_cons_of_neg _ hneg]
      simp

/-- Witness for C3 as amended: from the post-`start` state, two well-formed
init frames fire the ready callback exactly once. -/
theorem c3_ready_callback_at_most_once_witness :
    stAfterStart.initDone = false ∧ stAfterStart.startCallback = some 0 ∧
    countStartCb (runMessages stAfterStart [initFrameC, initFrameC]).2 =
      (match [initFrameC, initFrameC].find? isInitFrame with
       | some f => if isUndef (objGet f "ncmds") then 0 else 1
       | none => 0) :=
  ⟨rfl, rfl,
    c3_ready_callback_at_most_once stAfterStart 0 [initFrameC, initFrameC]
      rfl rfl⟩

/-- C1 (code evaluated at the failing input): with a locally issued request
pending under id "1", delivering an inbound reserved-response frame carrying
id "1" raises TypeError — the call of line 237 binds `this` to the handler
table, so `this._requests` in line 208 is `undefined` and indexing it throws
before any request lookup.  No continuation is invoked, no effect is
produced and the pending entry is not removed; and a response frame whose id
matches no pending entry raises the same TypeError instead of being dropped
without error. -/
theorem c1_response_with_pending_id_raises :
    (onMessage stPending respFrameP).error =
      some (JsError.typeError "this._requests is undefined") ∧
    (onMessage stPending respFrameP).effects = [] ∧
    (onMessage stPending respFrameP).state.requests = stPending.requests ∧
    (onMessage stPending respFrameNoMatch).error =
      some (JsError.typeError "this._requests is undefined") ∧
    (onMessage stPending respFrameNoMatch).state.requests = stPending.requests :=
  ⟨rfl, rfl, rfl, rfl, rfl⟩

/-- C2: for a command present in the lookup table built by the handshake
(with a defined, non-undefined index) on a connected client, `define` binds
the handler with no error effect, and `send` transmits exactly the
two-element frame of the assigned index and the data. -/
theorem c2_declared_define_and_send (st : ClientState) (c : String)
    (idxv : JsValue) (h : HandlerV) (d : JsValue)
    (hc : commandLookup st c = Except.ok idxv)
    (hu : isUndef idxv = false) (hio : st.io = true) :
    ((define st (some c) (some h)).state.networkCommands =
        assocInsert st.networkCommands c h ∧
      (define st (some c) (some h)).effects = [] ∧
      (define st (some c) (some h)).error = none) ∧
    ((send st c d).effects = [Effect.sent (JsValue.arr [idxv, d])] ∧
      (send st c d).state = st ∧ (send st c d).error = none) := by
  constructor
  · simp [define, hc, hu]
  · simp [send, hc, hu, hio]

/-- Witness for C2 at the post-handshake state: the command "chat" has index
1, so `define` binds a user handler and `send` transmits `[1, "x"]`. -/
theorem c2_declared_define_and_send_witness :
    commandLookup stReady "chat" = Except.ok (JsValue.num 1) ∧
    isUndef (JsValue.num 1) = false ∧ stReady.io = true ∧
    (((define stReady (some "chat") (some (HandlerV.user 5))).state.networkCommands =
        assocInsert stReady.networkCommands "chat" (HandlerV.user 5) ∧
      (define stReady (some "chat") (some (HandlerV.user 5))).effects = [] ∧
      (define stReady (some "chat") (some (HandlerV.user 5))).error = none) ∧
    ((send stReady "chat" (JsValue.str "x")).effects =
        [Effect.sent (JsValue.arr [JsValue.num 1, JsValue.str "x"])] ∧
      (send stReady "chat" (JsValue.str "x")).state = stReady ∧
      (send stReady "chat" (JsValue.str "x")).error = none)) :=
  ⟨rfl, rfl, rfl,
    c2_declared_define_and_send stReady "chat" (JsValue.num 1)
      (HandlerV.user 5) (JsValue.str "x") rfl rfl rfl⟩

/-- C4 (code evaluated at the failing input): responding to a stored inbound
request with id "r1" originally sent under the command name "chat" does send
a reserved-response envelope and does remove the entry, but the `cmd` field
of the envelope is the JS value `undefined` — not the original command name —
because line 172 reads `req.commandName` while the stored field is named
`cmd`. -/
theorem c4_response_sends_undefined_cmd :
    (response stWithInbound "r1" (JsValue.str "ok")).effects =
      [Effect.sent (JsValue.arr [JsValue.num 3,
        JsValue.obj [("id", JsValue.str "r1"), ("cmd", JsValue.undef),
          ("data", JsValue.str "ok")]])] ∧
    assocLookup (response stWithInbound "r1" (JsValue.str "ok")).state.requests
      "r1" = none ∧
    (response stWithInbound "r1" (JsValue.str "ok")).error = none :=
  ⟨rfl, rfl, rfl⟩

/-- C5 (code evaluated at the failing input): delivering an inbound reserved
request frame to the post-handshake state raises ReferenceError on the
undeclared identifier `socket` before anything happens: nothing is stored in
the pending map, no event is emitted, and the state is unchanged,
contradicting the claimed store-and-surface behaviour. -/
theorem c5_inbound_request_raises :
    (onMessage stReady reqFrameR).error =
      some (JsError.referenceError "socket") ∧
    (onMessage stReady reqFrameR).effects = [] ∧
    (onMessage stReady reqFrameR).state = stReady :=
  ⟨rfl, rfl, rfl⟩

/-- C6: `send` on a command whose lookup entry is undefined (any undeclared
command, in particular every command before a handshake completes) changes
no state, raises nothing, and produces exactly one error log — in
particular it transmits nothing. -/
theorem c6_send_undeclared_rejected (st : ClientState) (c : String)
    (d : JsValue) (h : commandLookup st c = Except.ok JsValue.undef) :
    (send st c d).state = st ∧ (send st c d).error = none ∧
    (send st c d).effects =
      [Effect.logged ("Cannot send network packet with command \"" ++ c ++
        "\" because the command has not been defined!") LogLevel.error] := by
  simp [send, h, isUndef]

/-- Witness for C6 on the initial (pre-handshake) state with the undeclared
command "jump". -/
theorem c6_send_undeclared_rejected_witness :
    commandLookup initialState "jump" = Except.ok JsValue.undef ∧
    ((send initialState "jump" (JsValue.str "x")).state = initialState ∧
      (send initialState "jump" (JsValue.str "x")).error = none ∧
      (send initialState "jump" (JsValue.str "x")).effects =
        [Effect.logged ("Cannot send network packet with command \"" ++ "jump" ++
          "\" because the command has not been defined!") LogLevel.error]) :=
  ⟨rfl, c6_send_undeclared_rejected initialState "jump" (JsValue.str "x") rfl⟩

/-- Counterexample for C7: on the post-handshake state, a decoded frame with
the unknown index 9 is dispatched without error and without invoking any
handler, but — contrary to the claim — it emits one generic event (named by
the JS value `undefined`, carrying the payload) and logs no diagnostic. -/
theorem c7_unknown_index_emits_counterexample :
    (_onMessageFromServer stReady unknownFrame).error = none ∧
    List.countP isEmittedEff
      (_onMessageFromServer stReady unknownFrame).effects = 1 ∧
    List.countP isLoggedEff
      (_onMessageFromServer stReady unknownFrame).effects = 0 :=
  ⟨rfl, rfl, rfl⟩

/-- C7 as amended: for a decoded frame whose index is not in the reverse
command table (and with no handler bound under the literal key "undefined"),
dispatch raises no error, changes no state and invokes no handler, but it
emits exactly one generic event, named by the JS value `undefined` and
carrying the payload, and it logs no diagnostic. -/
theorem c7_unknown_index_amended (st : ClientState) (d : JsValue)
    (h1 : assocLookup st.networkCommandsIndex (jsKey (jsIndex d 0)) = none)
    (h2 : assocLookup st.networkCommands "undefined" = none) :
    _onMessageFromServer st d =
      { state := st
        effects := [Effect.emitted JsValue.undef (jsIndex d 1)]
        error := none } := by
  have hr : resolveCommandName st d = JsValue.undef := by
    unfold resolveCommandName
    rw [h1]
  unfold _onMessageFromServer
  rw [hr]
  simp [jsKey, h2]

/-- Witness for C7 as amended, at the post-handshake state with the unknown
index 9. -/
theorem c7_unknown_index_amended_witness :
    assocLookup stReady.networkCommandsIndex (jsKey (jsIndex unknownFrame 0)) =
      none ∧
    assocLookup stReady.networkCommands "undefined" = none ∧
    _onMessageFromServer stReady unknownFrame =
      { state := stReady
        effects := [Effect.emitted JsValue.undef (jsIndex unknownFrame 1)]
        error := none } :=
  ⟨rfl, rfl, c7_unknown_index_amended stReady unknownFrame rfl rfl⟩

/-- Counterexample for C8: calling `start` without a WebSocket transport is
not a complete no-op — the callback argument is recorded in
`_startCallback`, so the component state changes. -/
theorem c8_start_no_websocket_counterexample :
    (start initialState (some "ws://server") (some 0) false).state.startCallback ≠
      initialState.startCallback := by
  intro h
  simp [start, initialState] at h

/-- C8 as amended: without a WebSocket transport, `start` opens no
connection, registers no listeners and invokes no callback, but it still
stores the callback in `_startCallback`, stores the url in `_url` when one
is given, and logs the connecting message. -/
theorem c8_start_no_websocket_amended (st : ClientState) (url : Option String)
    (cb : Option Nat) :
    (start st url cb false).state =
      { st with startCallback := cb,
                url := if url.isSome then url else st.url } ∧
    (start st url cb false).effects =
      [Effect.logged ("Connecting to net.io server at \"" ++
        (match (if url.isSome then url else st.url) with
         | some u => u
         | none => "undefined") ++ "\"...") LogLevel.info] ∧
    (start st url cb false).error = none := by
  cases url with
  | none => exact ⟨rfl, rfl, rfl⟩
  | some u => exact ⟨rfl, rfl, rfl⟩

/-- C9 (code evaluated at the failing input): with a locally originated
request pending under id "1", delivering an inbound reserved-request frame
carrying the same id "1" raises ReferenceError on the undeclared identifier
`socket` before the store in line 196 executes, so the outgoing entry is not
overwritten and its continuation (token 7) survives, contradicting the
claimed overwrite-and-lose behaviour. -/
theorem c9_inbound_same_id_does_not_overwrite :
    (onMessage stPending reqFrameSameId).error =
      some (JsError.referenceError "socket") ∧
    (onMessage stPending reqFrameSameId).state.requests = stPending.requests ∧
    (assocLookup (onMessage stPending reqFrameSameId).state.requests "1").map
      ReqEntry.callback = some (some 7) :=
  ⟨rfl, rfl, rfl⟩

/-- C10: `request` stores the pending entry — with the generated id, the
command name, the data, the timestamp and the continuation — even when the
reserved "_igeRequest" command is not declared in the lookup table (as
before any handshake): the entry is in the map afterwards while the only
effect is the send-rejection error log, so nothing was transmitted and no
exception was raised. -/
theorem c10_request_stored_without_transmission (st : ClientState)
    (c : String) (d : JsValue) (k : Nat) (now : Int) (rnd : Nat)
    (h : commandLookup st "_igeRequest" = Except.ok JsValue.undef) :
    assocLookup (request st c d k now rnd).state.requests
        (newIdHex st.idCounter rnd).1 =
      some (ReqEntry.mk (JsValue.obj [("id", JsValue.str (newIdHex st.idCounter rnd).1),
        ("cmd", JsValue.str c), ("data", d), ("timestamp", JsValue.num now)])
        (some k)) ∧
    (request st c d k now rnd).effects =
      [Effect.logged ("Cannot send network packet with command \"" ++
        "_igeRequest" ++ "\" because the command has not been defined!")
        LogLevel.error] ∧
    (request st c d k now rnd).error = none := by
  have h' : jsGetProp st.networkCommandsLookup "_igeRequest" =
      Except.ok JsValue.undef := h
  simp [request, send, commandLookup, h', assocLookup_insert, isUndef]

/-- Witness for C10 on the initial (pre-handshake) state: the entry for the
generated id "1" is stored with continuation token 7 and only the error log
is produced. -/
theorem c10_request_stored_without_transmission_witness :
    commandLookup initialState "_igeRequest" = Except.ok JsValue.undef ∧
    (assocLookup (request initialState "chat" (JsValue.str "hi") 7 0 0).state.requests
        (newIdHex initialState.idCounter 0).1 =
      some (ReqEntry.mk (JsValue.obj [("id", JsValue.str (newIdHex initialState.idCounter 0).1),
        ("cmd", JsValue.str "chat"), ("data", JsValue.str "hi"),
        ("timestamp", JsValue.num 0)]) (some 7)) ∧
    (request initialState "chat" (JsValue.str "hi") 7 0 0).effects =
      [Effect.logged ("Cannot send network packet with command \"" ++
        "_igeRequest" ++ "\" because the command has not been defined!")
        LogLevel.error] ∧
    (request initialState "chat" (JsValue.str "hi") 7 0 0).error = none) :=
  ⟨rfl, c10_request_stored_without_transmission initialState "chat"
    (JsValue.str "hi") 7 0 0 rfl⟩
